import Mathlib

/-!
Verification of the microblog.pub federation core against its specification.

This file gives a shallow embedding of the repository's data model
(`activitypub/models.py`), of the retention pruner (`app/prune.py`), and of
the outgoing-delivery queue and ingestion operations described in the spec
(their implementation module is not part of the provided sources; those
definitions are modelled from the spec, as marked in their doc comments).

Conventions:
- SQL timestamps are embedded as `Int` (seconds); `timedelta(days=d)` is
  `86400 * d` seconds.
- Nullable SQL columns are embedded as `Option`; SQL three-valued logic is
  reproduced at each use site (a comparison against `NULL` is never true,
  which the embedding renders by pattern matching on the `Option`).
- `col LIKE 'prefix%'` is embedded as prefix matching on the string.
- Field defaults in the structures mirror the column defaults declared in
  `activitypub/models.py`; `NOT NULL` columns without a database default are
  given placeholder defaults so that concrete rows stay readable.
-/

namespace Microblog

/-- Visibility levels of an object (`ap.VisibilityEnum`, referenced by the
`visibility` columns in `activitypub/models.py`); the four values are listed
in the spec's data model: public, unlisted, followers-only, direct. -/
inductive Visibility where
  | PUBLIC
  | UNLISTED
  | FOLLOWERS_ONLY
  | DIRECT
deriving DecidableEq, Repr

/-- Row of the `inbox` table (`activitypub/models.py`, class `InboxObject`).
The raw JSON document column `ap_object` is not embedded wholesale; the one
derived attribute the claims need, `in_reply_to` (the document's `inReplyTo`
field, exposed by the `BaseObject` mixin), is embedded as its own field.
Relationship attributes and `og_meta`/`voted_for_answers` are omitted. -/
structure InboxObject where
  id : Nat := 0
  created_at : Int := 0
  updated_at : Int := 0
  actor_id : Nat := 0
  server : String := ""
  is_hidden_from_stream : Bool := false
  ap_actor_id : String := ""
  ap_type : String := ""
  ap_id : String := ""
  ap_context : Option String := none
  ap_published_at : Int := 0
  in_reply_to : Option String := none
  activity_object_ap_id : Option String := none
  visibility : Visibility := .PUBLIC
  conversation : Option String := none
  has_local_mention : Bool := false
  relates_to_inbox_object_id : Option Nat := none
  relates_to_outbox_object_id : Option Nat := none
  undone_by_inbox_object_id : Option Nat := none
  liked_via_outbox_object_ap_id : Option String := none
  announced_via_outbox_object_ap_id : Option String := none
  is_bookmarked : Bool := false
  is_deleted : Bool := false
  is_transient : Bool := false
  replies_count : Nat := 0
deriving DecidableEq, Repr

/-- Row of the `outbox` table (`activitypub/models.py`, class `OutboxObject`).
As for `InboxObject`, `in_reply_to` stands in for the `inReplyTo` field of the
raw `ap_object` JSON document; relationship attributes and attachments are
omitted. -/
structure OutboxObject where
  id : Nat := 0
  created_at : Int := 0
  updated_at : Int := 0
  is_hidden_from_homepage : Bool := false
  public_id : String := ""
  slug : Option String := none
  ap_type : String := ""
  ap_id : String := ""
  ap_context : Option String := none
  in_reply_to : Option String := none
  activity_object_ap_id : Option String := none
  source : Option String := none
  ap_published_at : Int := 0
  visibility : Visibility := .PUBLIC
  conversation : Option String := none
  likes_count : Nat := 0
  announces_count : Nat := 0
  replies_count : Nat := 0
  webmentions_count : Nat := 0
  is_pinned : Bool := false
  is_transient : Bool := false
  is_deleted : Bool := false
  relates_to_inbox_object_id : Option Nat := none
  relates_to_outbox_object_id : Option Nat := none
  relates_to_actor_id : Option Nat := none
  undone_by_outbox_object_id : Option Nat := none
deriving DecidableEq, Repr

/-- Row of the `incoming_activity` table (`activitypub/models.py`, class
`IncomingActivity`); the raw `ap_object` JSON payload column is omitted. -/
structure IncomingActivity where
  id : Nat := 0
  created_at : Int := 0
  webmention_source : Option String := none
  sent_by_ap_actor_id : Option String := none
  ap_id : Option String := none
  tries : Nat := 0
  next_try : Option Int := some 0
  last_try : Option Int := none
  is_processed : Bool := false
  is_errored : Bool := false
  error : Option String := none
deriving DecidableEq, Repr

/-- Row of the `outgoing_activity` table (`activitypub/models.py`, class
`OutgoingActivity`). -/
structure OutgoingActivity where
  id : Nat := 0
  created_at : Int := 0
  recipient : String := ""
  outbox_object_id : Option Nat := none
  inbox_object_id : Option Nat := none
  webmention_target : Option String := none
  tries : Nat := 0
  next_try : Option Int := some 0
  last_try : Option Int := none
  last_status_code : Option Nat := none
  last_response : Option String := none
  is_sent : Bool := false
  is_errored : Bool := false
  error : Option String := none
deriving DecidableEq, Repr

/-- Row of the `poll_answer` table (`activitypub/models.py`, class
`PollAnswer`). -/
structure PollAnswer where
  id : Nat := 0
  created_at : Int := 0
  outbox_object_id : Nat := 0
  poll_type : String := ""
  inbox_object_id : Nat := 0
  actor_id : Nat := 0
  name : String := ""
deriving DecidableEq, Repr

/-- SQL `col LIKE pat || '%'`: `s` starts with `pat` (the `%` wildcard is
only ever used in trailing position in `app/prune.py`, and `BASE_URL` holds
no wildcard characters). -/
def likeStartsWith (pat s : String) : Bool :=
  pat.data.isPrefixOf s.data

/-- The cutoff timestamp `now() - timedelta(days=INBOX_RETENTION_DAYS)` used
by all three pruning functions in `app/prune.py`. -/
def pruneCutoff (now : Int) (retentionDays : Nat) : Int :=
  now - 86400 * retentionDays

/-- Deletion predicate of `_prune_old_incoming_activities` (`app/prune.py`):
a row is deleted iff it is older than the retention window and not errored
("Keep failed activity for debug"). -/
def pruneDeletesIncomingActivity (now : Int) (retentionDays : Nat)
    (a : IncomingActivity) : Bool :=
  decide (a.created_at < pruneCutoff now retentionDays) && !a.is_errored

/-- Deletion predicate of `_prune_old_outgoing_activities` (`app/prune.py`):
same shape as for incoming activities. -/
def pruneDeletesOutgoingActivity (now : Int) (retentionDays : Nat)
    (a : OutgoingActivity) : Bool :=
  decide (a.created_at < pruneCutoff now retentionDays) && !a.is_errored

/-- The `outbox_conversation` subquery of `_prune_old_inbox_objects`
(`app/prune.py`): membership of `c` in the set of distinct non-null
`OutboxObject.conversation` values that do not start with `BASE_URL`. -/
def inOutboxConversations (baseUrl : String) (outboxRows : List OutboxObject)
    (c : String) : Bool :=
  outboxRows.any fun o =>
    match o.conversation with
    | some v => decide (v = c) && !likeStartsWith baseUrl v
    | none => false

/-- The conversation clause of `_prune_old_inbox_objects` (`app/prune.py`):
`or_(conversation NOT LIKE 'BASE_URL%', conversation IS NULL,
conversation NOT IN outbox_conversation)`. With a `NULL` conversation the
`IS NULL` disjunct makes the SQL `OR` true; with a non-null conversation the
other two disjuncts are two-valued. -/
def inboxPruneConversationClause (baseUrl : String)
    (outboxRows : List OutboxObject) (obj : InboxObject) : Bool :=
  match obj.conversation with
  | none => true
  | some c =>
    !likeStartsWith baseUrl c || !inOutboxConversations baseUrl outboxRows c

/-- The activity-object clause of `_prune_old_inbox_objects` (`app/prune.py`):
`or_(activity_object_ap_id NOT LIKE 'BASE_URL%', activity_object_ap_id IS
NULL)` — keep activities that target the outbox. -/
def inboxPruneActivityObjectClause (baseUrl : String) (obj : InboxObject) : Bool :=
  match obj.activity_object_ap_id with
  | none => true
  | some a => !likeStartsWith baseUrl a

/-- Deletion predicate of `_prune_old_inbox_objects` (`app/prune.py`): the
conjunction of all preservation clauses and the retention-window clause, in
source order. -/
def pruneDeletesInboxObject (baseUrl : String) (outboxRows : List OutboxObject)
    (now : Int) (retentionDays : Nat) (obj : InboxObject) : Bool :=
  -- Keep bookmarked objects
  !obj.is_bookmarked
  -- Keep liked objects
  && obj.liked_via_outbox_object_ap_id.isNone
  -- Keep announced objects
  && obj.announced_via_outbox_object_ap_id.isNone
  -- Keep objects mentioning the local actor
  && !obj.has_local_mention
  -- Keep objects related to local conversations
  && inboxPruneConversationClause baseUrl outboxRows obj
  -- Keep activities related to the outbox
  && inboxPruneActivityObjectClause baseUrl obj
  -- Keep direct messages
  && !(decide (obj.visibility = .DIRECT) && decide (obj.ap_type = "Note"))
  -- Keep Move objects as they are linked to notifications
  && !(decide (obj.ap_type = "Move"))
  -- Filter by retention days
  && decide (obj.ap_published_at < pruneCutoff now retentionDays)

/-- The preservation condition stated by the spec for conversations
("anything participating in a conversation that also contains local
content"): the object's conversation is set and is either rooted at the
local instance or shared with some outbox object. Stated from the spec's
words to be compared with the source's `inboxPruneConversationClause`. -/
def participatesInLocalConversation (baseUrl : String)
    (outboxRows : List OutboxObject) (obj : InboxObject) : Bool :=
  match obj.conversation with
  | none => false
  | some c =>
    likeStartsWith baseUrl c
    || outboxRows.any fun o =>
        match o.conversation with
        | some v => decide (v = c)
        | none => false

/-! ## Outgoing delivery queue

The queue operations live in `activitypub/outgoing_activities.py`, which is
not among the provided sources; only its test module
(`activitypub/tests/test_process_outgoing_activities.py`) is. The operations
below are therefore modelled from the spec's §4.3 ("Outgoing Delivery
Queue"), and checked against the behavior pinned by those tests. -/

/-- Modelled from the spec: the backoff schedule of §4.3, "compute
`next_try = now + backoff(tries)` (monotonically increasing delay)"; the
implementation module `activitypub/outgoing_activities.py` is not among the
provided sources. An exponential schedule realizes the monotone requirement. -/
def _exp_backoff (tries : Nat) : Int :=
  2 ^ tries

/-- Eligibility filter of `fetch_next`: `is_sent = false`, `is_errored =
false`, `next_try <= now` (a row whose `next_try` is SQL `NULL` fails the
comparison). -/
def outgoingActivityEligible (now : Int) (a : OutgoingActivity) : Bool :=
  !a.is_sent && !a.is_errored &&
    match a.next_try with
    | some t => decide (t ≤ now)
    | none => false

/-- The `next_try` sort key of an eligible row (eligible rows always carry a
`next_try` value). -/
def nextTryKey (a : OutgoingActivity) : Int :=
  a.next_try.getD 0

/-- First row of a list when ordered by `nextTryKey` ascending (earlier list
positions win ties, as `ORDER BY ... LIMIT 1` returns a single row). -/
def pickMinNextTry : List OutgoingActivity → Option OutgoingActivity
  | [] => none
  | r :: rs =>
    match pickMinNextTry rs with
    | none => some r
    | some b => if nextTryKey r ≤ nextTryKey b then some r else some b

/-- Modelled from the spec: `fetch_next_outgoing_activity` of
`activitypub/outgoing_activities.py` (not among the provided sources), per
§4.3: "selects the oldest row where `is_sent = false`, `is_errored = false`,
and `next_try <= now`, ordered by `next_try` ascending; returns none if no
such row exists". -/
def fetch_next_outgoing_activity (now : Int) (rows : List OutgoingActivity) :
    Option OutgoingActivity :=
  pickMinNextTry (rows.filter (outgoingActivityEligible now))

/-- Outcome of the single delivery attempt made by `process`: an HTTP
response, or a network failure. -/
inductive DeliveryOutcome where
  | response (status : Nat) (body : String)
  | connectionError (msg : String)
deriving DecidableEq, Repr

/-- HTTP success check: a 2xx status code. -/
def is2xx (status : Nat) : Bool :=
  200 ≤ status && status < 300

/-- Whether the delivery attempt failed (HTTP non-2xx or network failure). -/
def deliveryFailed : DeliveryOutcome → Bool
  | .response status _ => !is2xx status
  | .connectionError _ => true

/-- Modelled from the spec: the row update performed by
`process_next_outgoing_activity` of `activitypub/outgoing_activities.py`
(not among the provided sources), per §4.3: on HTTP 2xx mark `is_sent =
true`, record the status code, clear the error; on HTTP non-2xx or network
failure increment `tries`, record status/response/error, and if `tries >=
MAX_RETRIES` mark `is_errored = true` (terminal), otherwise set `next_try =
now + backoff(tries)` and leave `is_sent = false` for a later retry. -/
def process_next_outgoing_activity (maxRetries : Nat) (now : Int)
    (outcome : DeliveryOutcome) (a : OutgoingActivity) : OutgoingActivity :=
  match outcome with
  | .response status body =>
    if is2xx status then
      { a with
        is_sent := true
        last_status_code := some status
        last_response := some body
        error := none
        last_try := some now }
    else
      let tries := a.tries + 1
      if maxRetries ≤ tries then
        { a with
          tries := tries
          last_status_code := some status
          last_response := some body
          error := some body
          is_errored := true
          last_try := some now }
      else
        { a with
          tries := tries
          last_status_code := some status
          last_response := some body
          error := some body
          next_try := some (now + _exp_backoff tries)
          last_try := some now }
  | .connectionError msg =>
    let tries := a.tries + 1
    if maxRetries ≤ tries then
      { a with
        tries := tries
        error := some msg
        is_errored := true
        last_try := some now }
    else
      { a with
        tries := tries
        error := some msg
        next_try := some (now + _exp_backoff tries)
        last_try := some now }

/-! ## Ingestion deduplication

The ingestion entry points live in `app/boxes.py`, which is not among the
provided sources. The deduplication step is modelled from the spec's §4.2:
"deduplicate by protocol identifier — if already present, treat as a replay
and return the existing row without re-applying side effects", backed by the
`unique=True` declarations on `InboxObject.ap_id` and `OutboxObject.ap_id`
in `activitypub/models.py`. -/

/-- Modelled from the spec: ingestion of an activity into the `inbox` table
(§4.2 step (2)); the implementing module `app/boxes.py` is not among the
provided sources. Returns the updated table and whether side effects were
applied (they are applied exactly when a new row is stored). -/
def ingestInboxObject (store : List InboxObject) (r : InboxObject) :
    List InboxObject × Bool :=
  if store.any fun x => decide (x.ap_id = r.ap_id) then
    (store, false)
  else
    (store ++ [r], true)

/-- Modelled from the spec: persistence of a locally produced activity into
the `outbox` table, deduplicated by `ap_id` exactly as for the inbox
(`OutboxObject.ap_id` is `unique=True` in `activitypub/models.py`). -/
def ingestOutboxObject (store : List OutboxObject) (r : OutboxObject) :
    List OutboxObject × Bool :=
  if store.any fun x => decide (x.ap_id = r.ap_id) then
    (store, false)
  else
    (store ++ [r], true)

/-! ## Outbox Delete side effects -/

/-- The two object tables, as far as the Delete side effects are concerned. -/
structure Store where
  inbox : List InboxObject
  outbox : List OutboxObject
deriving DecidableEq, Repr

/-- Live (non-deleted) reply check against a parent `ap_id`. -/
def isLiveInboxReplyTo (parentApId : String) (o : InboxObject) : Bool :=
  decide (o.in_reply_to = some parentApId) && !o.is_deleted

/-- Live (non-deleted) reply check against a parent `ap_id`. -/
def isLiveOutboxReplyTo (parentApId : String) (o : OutboxObject) : Bool :=
  decide (o.in_reply_to = some parentApId) && !o.is_deleted

/-- Count of live replies (inbox and outbox) to the object with the given
`ap_id`, the value the replies counter is refreshed to. -/
def liveRepliesCount (inboxRows : List InboxObject)
    (outboxRows : List OutboxObject) (parentApId : String) : Nat :=
  inboxRows.countP (isLiveInboxReplyTo parentApId)
    + outboxRows.countP (isLiveOutboxReplyTo parentApId)

/-- Modelled from the spec: the side effects of sending a Delete for an
outbox object (§4.1, "tombstones the OutboxObject ... and, if it was a
reply, decrements the parent's `replies_count`"). The implementing function
(`send_delete` in `app/boxes.py`) is not among the provided sources; the
replies-counter update it performs is pinned by the in-repository test
`test_send_delete__reverts_side_effects` (`activitypub/tests/test_outbox.py`),
which starts the parent at a stale `replies_count = 5` with two live replies
and asserts `1` after one reply is deleted: the counter is refreshed to the
live reply count, which this definition follows. -/
def sendDelete (s : Store) (apId : String) : Store :=
  match s.outbox.find? fun o => decide (o.ap_id = apId) && !o.is_deleted with
  | none => s
  | some o =>
    let outboxTombstoned := s.outbox.map fun x =>
      if x.ap_id = apId then { x with is_deleted := true } else x
    match o.in_reply_to with
    | none => { s with outbox := outboxTombstoned }
    | some parent =>
      let newCount := liveRepliesCount s.inbox outboxTombstoned parent
      { inbox := s.inbox.map fun x =>
          if x.ap_id = parent then { x with replies_count := newCount } else x
        outbox := outboxTombstoned.map fun x =>
          if x.ap_id = parent then { x with replies_count := newCount } else x }

/-! ## OutgoingActivity.anybox_object -/

/-- Reference returned by `OutgoingActivity.anybox_object`: the linked
outbox or inbox object (stood for by its row id). -/
inductive AnyboxRef where
  | outboxRef (id : Nat)
  | inboxRef (id : Nat)
deriving DecidableEq, Repr

/-- Python truthiness of an optional integer id column: `if self.x_id:` is
taken for a non-`None`, non-zero value. -/
def optIdTruthy : Option Nat → Bool
  | none => false
  | some n => decide (n ≠ 0)

/-- The `anybox_object` property of `OutgoingActivity`
(`activitypub/models.py`): the outbox object if `outbox_object_id` is
truthy, else the inbox object if `inbox_object_id` is truthy, else
`raise ValueError("Should never happen")`. -/
def anybox_object (a : OutgoingActivity) : Except String AnyboxRef :=
  if optIdTruthy a.outbox_object_id then
    Except.ok (AnyboxRef.outboxRef (a.outbox_object_id.getD 0))
  else if optIdTruthy a.inbox_object_id then
    Except.ok (AnyboxRef.inboxRef (a.inbox_object_id.getD 0))
  else
    Except.error ("Should never happen")

/-! ## PollAnswer uniqueness constraints -/

/-- Conflict under the `uix_outbox_object_id_name_actor_id` unique
constraint of `poll_answer` (`activitypub/models.py`): same poll, same
answer name, same actor. -/
def pollAnswerNameConflict (x r : PollAnswer) : Bool :=
  decide (x.outbox_object_id = r.outbox_object_id)
    && decide (x.name = r.name)
    && decide (x.actor_id = r.actor_id)

/-- Conflict under the partial unique index
`uix_one_of_outbox_object_id_actor_id` of `poll_answer`
(`activitypub/models.py`): same poll and same actor, where both rows fall in
the index's scope `poll_type = "oneOf"`. -/
def pollAnswerOneOfConflict (x r : PollAnswer) : Bool :=
  decide (x.poll_type = "oneOf") && decide (r.poll_type = "oneOf")
    && decide (x.outbox_object_id = r.outbox_object_id)
    && decide (x.actor_id = r.actor_id)

/-- Whether inserting `r` into the `poll_answer` table is accepted by the
two schema constraints declared in `activitypub/models.py`. -/
def pollAnswerInsertOK (table : List PollAnswer) (r : PollAnswer) : Bool :=
  table.all fun x => !pollAnswerNameConflict x r && !pollAnswerOneOfConflict x r

/-! ## Theorems -/

/-- C8: the Retention Pruner deletes an IncomingActivity or OutgoingActivity
queue row if and only if the row's `created_at` is older than the retention
window and its `is_errored` flag is false; errored queue rows are never
deleted by the pruner. -/
theorem prune_queue_rows_iff :
    ∀ (now : Int) (retentionDays : Nat) (a : IncomingActivity)
      (b : OutgoingActivity),
      (pruneDeletesIncomingActivity now retentionDays a = true ↔
        a.created_at < pruneCutoff now retentionDays ∧ a.is_errored = false)
      ∧ (pruneDeletesOutgoingActivity now retentionDays b = true ↔
        b.created_at < pruneCutoff now retentionDays ∧ b.is_errored = false) := by
  intro now d a b
  constructor
  · simp [pruneDeletesIncomingActivity]
  · simp [pruneDeletesOutgoingActivity]

/-- C8 witness: a non-errored incoming-activity row created at time 0 is
deleted by a prune run at time 100000 with a 1-day window. -/
theorem prune_queue_rows_iff_witness :
    pruneDeletesIncomingActivity 100000 1 {} = true :=
  (prune_queue_rows_iff 100000 1 {} {}).1.mpr ⟨by decide, rfl⟩

/-- C9: the inbox pruner's age cutoff is computed from `ap_published_at`,
not from `created_at`: the deletion predicate is invariant under changes to
`created_at`, any deleted object has `ap_published_at` older than the
window, and an object whose `ap_published_at` is within the window is never
deleted, whatever its `created_at`. -/
theorem prune_inbox_age_uses_ap_published_at :
    ∀ (baseUrl : String) (outboxRows : List OutboxObject) (now : Int)
      (retentionDays : Nat) (obj : InboxObject) (t : Int),
      pruneDeletesInboxObject baseUrl outboxRows now retentionDays
          { obj with created_at := t }
        = pruneDeletesInboxObject baseUrl outboxRows now retentionDays obj
      ∧ (pruneDeletesInboxObject baseUrl outboxRows now retentionDays obj = true →
          obj.ap_published_at < pruneCutoff now retentionDays)
      ∧ (pruneCutoff now retentionDays ≤ obj.ap_published_at →
          pruneDeletesInboxObject baseUrl outboxRows now retentionDays obj = false) := by
  intro b rows now d obj t
  have key : pruneDeletesInboxObject b rows now d obj = true →
      obj.ap_published_at < pruneCutoff now d := by
    intro h
    unfold pruneDeletesInboxObject at h
    rw [Bool.and_eq_true] at h
    exact of_decide_eq_true h.2
  refine ⟨rfl, key, ?_⟩
  intro hle
  cases h : pruneDeletesInboxObject b rows now d obj
  · rfl
  · exact absurd (key h) (not_lt.mpr hle)

/-- C9 witness: an object whose publication date is at the cutoff is not
deleted even though its `created_at` is far in the past. -/
theorem prune_inbox_age_uses_ap_published_at_witness :
    pruneDeletesInboxObject "https://me.example" [] 0 0
      { created_at := -99999999 } = false :=
  (prune_inbox_age_uses_ap_published_at "https://me.example" [] 0 0
    { created_at := -99999999 } 0).2.2 (by decide)

/-- C10: `anybox_object` returns the linked OutboxObject when
`outbox_object_id` is set, otherwise the linked InboxObject when
`inbox_object_id` is set, and raises `ValueError` when both links are null. -/
theorem anybox_object_spec :
    ∀ (a : OutgoingActivity),
      (∀ i, a.outbox_object_id = some i → 0 < i →
        anybox_object a = Except.ok (AnyboxRef.outboxRef i))
      ∧ (a.outbox_object_id = none → ∀ j, a.inbox_object_id = some j → 0 < j →
        anybox_object a = Except.ok (AnyboxRef.inboxRef j))
      ∧ (a.outbox_object_id = none → a.inbox_object_id = none →
        anybox_object a = Except.error ("Should never happen")) := by
  intro a
  refine ⟨?_, ?_, ?_⟩
  · intro i hi hpos
    simp [anybox_object, optIdTruthy, hi, hpos.ne']
  · intro h0 j hj hpos
    simp [anybox_object, optIdTruthy, h0, hj, hpos.ne']
  · intro h0 h1
    simp [anybox_object, optIdTruthy, h0, h1]

/-- C10 witness: the schema does not forbid the both-null state — a row with
neither link (both nullable foreign keys unset, as a bare
`OutgoingActivityFactory` row would have them) reaches the `ValueError`
branch; and a row linked to outbox object 7 resolves to it. -/
theorem anybox_object_spec_witness :
    anybox_object {} = Except.error ("Should never happen")
    ∧ anybox_object { outbox_object_id := some 7 }
        = Except.ok (AnyboxRef.outboxRef 7) :=
  ⟨(anybox_object_spec {}).2.2 rfl rfl,
    (anybox_object_spec { outbox_object_id := some 7 }).1 7 rfl (by decide)⟩

/-- C7: for a "oneOf" poll a second vote from the same actor is rejected even
for a different answer; a duplicate (same poll, same answer, same actor) is
always rejected; and for an "anyOf" poll a second vote for a different
answer from the same actor is accepted — the per-(poll, actor) constraint is
scoped to `poll_type = "oneOf"` rows only. -/
theorem poll_answer_uniqueness :
    ∀ (t : List PollAnswer) (x r : PollAnswer),
      (x ∈ t → x.poll_type = "oneOf" → r.poll_type = "oneOf" →
        x.outbox_object_id = r.outbox_object_id → x.actor_id = r.actor_id →
        pollAnswerInsertOK t r = false)
      ∧ (x ∈ t → x.outbox_object_id = r.outbox_object_id → x.name = r.name →
        x.actor_id = r.actor_id → pollAnswerInsertOK t r = false)
      ∧ (x.poll_type = "anyOf" → r.poll_type = "anyOf" →
        x.outbox_object_id = r.outbox_object_id → x.actor_id = r.actor_id →
        x.name ≠ r.name → pollAnswerInsertOK [x] r = true) := by
  intro t x r
  refine ⟨?_, ?_, ?_⟩
  · intro hx h1 h2 h3 h4
    cases hOK : pollAnswerInsertOK t r
    · rfl
    · exfalso
      have hxOK := List.all_eq_true.mp hOK x hx
      simp [pollAnswerOneOfConflict, h1, h2, h3, h4] at hxOK
  · intro hx h1 h2 h3
    cases hOK : pollAnswerInsertOK t r
    · rfl
    · exfalso
      have hxOK := List.all_eq_true.mp hOK x hx
      simp [pollAnswerNameConflict, h1, h2, h3] at hxOK
  · intro h1 h2 h3 h4 h5
    simp [pollAnswerInsertOK, pollAnswerNameConflict, pollAnswerOneOfConflict,
      h1, h2, h3, h4, h5]

/-- C7 witness: with one "oneOf" vote (answer "A") stored, a vote for "B"
from the same actor on the same poll is rejected; with one "anyOf" vote
(answer "A") stored, a vote for "B" from the same actor is accepted. -/
theorem poll_answer_uniqueness_witness :
    pollAnswerInsertOK
        [{ outbox_object_id := 1, poll_type := "oneOf", actor_id := 3, name := "A" }]
        { outbox_object_id := 1, poll_type := "oneOf", actor_id := 3, name := "B" }
      = false
    ∧ pollAnswerInsertOK
        [{ outbox_object_id := 1, poll_type := "anyOf", actor_id := 3, name := "A" }]
        { outbox_object_id := 1, poll_type := "anyOf", actor_id := 3, name := "B" }
      = true :=
  ⟨(poll_answer_uniqueness
      [{ outbox_object_id := 1, poll_type := "oneOf", actor_id := 3, name := "A" }]
      { outbox_object_id := 1, poll_type := "oneOf", actor_id := 3, name := "A" }
      { outbox_object_id := 1, poll_type := "oneOf", actor_id := 3, name := "B" }).1
      (List.mem_singleton.mpr rfl) rfl rfl rfl rfl,
    (poll_answer_uniqueness
      []
      { outbox_object_id := 1, poll_type := "anyOf", actor_id := 3, name := "A" }
      { outbox_object_id := 1, poll_type := "anyOf", actor_id := 3, name := "B" }).2.2
      rfl rfl rfl rfl (by decide)⟩

/-- `pickMinNextTry` returns `none` exactly on the empty list. -/
theorem pickMinNextTry_eq_none_iff :
    ∀ {l : List OutgoingActivity}, pickMinNextTry l = none ↔ l = [] := by
  intro l
  cases l with
  | nil => simp [pickMinNextTry]
  | cons a t =>
    cases ht : pickMinNextTry t with
    | none => simp [pickMinNextTry, ht]
    | some b =>
      by_cases hle : nextTryKey a ≤ nextTryKey b
      · simp [pickMinNextTry, ht, hle]
      · simp [pickMinNextTry, ht, hle]

/-- A row picked by `pickMinNextTry` belongs to the list. -/
theorem pickMinNextTry_mem :
    ∀ {l : List OutgoingActivity} {r : OutgoingActivity},
      pickMinNextTry l = some r → r ∈ l := by
  intro l
  induction l with
  | nil => intro r h; simp [pickMinNextTry] at h
  | cons a t ih =>
    intro r h
    cases ht : pickMinNextTry t with
    | none =>
      simp only [pickMinNextTry, ht, Option.some.injEq] at h
      rw [← h]
      exact List.mem_cons_self a t
    | some b =>
      simp only [pickMinNextTry, ht] at h
      by_cases hle : nextTryKey a ≤ nextTryKey b
      · rw [if_pos hle, Option.some.injEq] at h
        rw [← h]
        exact List.mem_cons_self a t
      · rw [if_neg hle, Option.some.injEq] at h
        rw [← h]
        exact List.mem_cons_of_mem a (ih ht)

/-- A row picked by `pickMinNextTry` has a minimal `next_try` key. -/
theorem pickMinNextTry_min :
    ∀ {l : List OutgoingActivity} {r : OutgoingActivity},
      pickMinNextTry l = some r → ∀ x ∈ l, nextTryKey r ≤ nextTryKey x := by
  intro l
  induction l with
  | nil => intro r h; simp [pickMinNextTry] at h
  | cons a t ih =>
    intro r h x hx
    cases ht : pickMinNextTry t with
    | none =>
      have htnil : t = [] := pickMinNextTry_eq_none_iff.mp ht
      simp only [pickMinNextTry, ht, Option.some.injEq] at h
      rw [← h]
      rcases List.mem_cons.mp hx with hxa | hxt
      · rw [hxa]
      · rw [htnil] at hxt
        simp at hxt
    | some b =>
      simp only [pickMinNextTry, ht] at h
      by_cases hle : nextTryKey a ≤ nextTryKey b
      · rw [if_pos hle, Option.some.injEq] at h
        rw [← h]
        rcases List.mem_cons.mp hx with hxa | hxt
        · rw [hxa]
        · exact le_trans hle (ih ht x hxt)
      · rw [if_neg hle, Option.some.injEq] at h
        rw [← h]
        rcases List.mem_cons.mp hx with hxa | hxt
        · rw [hxa]; exact le_of_not_le hle
        · exact ih ht x hxt

/-- C5: `fetch_next` returns none exactly when no row satisfies all of
`is_sent = false`, `is_errored = false`, `next_try <= now`; otherwise it
returns an eligible stored row whose `next_try` is minimal among all
eligible rows. -/
theorem fetch_next_selects_min :
    ∀ (now : Int) (rows : List OutgoingActivity),
      (fetch_next_outgoing_activity now rows = none ↔
        ∀ r ∈ rows, outgoingActivityEligible now r = false)
      ∧ (∀ r, fetch_next_outgoing_activity now rows = some r →
          r ∈ rows ∧ outgoingActivityEligible now r = true
          ∧ ∀ x ∈ rows, outgoingActivityEligible now x = true →
              nextTryKey r ≤ nextTryKey x)
      ∧ (∀ a, outgoingActivityEligible now a = true ↔
          a.is_sent = false ∧ a.is_errored = false
          ∧ ∃ t, a.next_try = some t ∧ t ≤ now) := by
  intro now rows
  refine ⟨?_, ?_, ?_⟩
  · rw [fetch_next_outgoing_activity, pickMinNextTry_eq_none_iff,
      List.filter_eq_nil_iff]
    constructor
    · intro h r hr
      exact Bool.eq_false_iff.mpr (h r hr)
    · intro h r hr
      exact Bool.eq_false_iff.mp (h r hr)
  · intro r h
    rw [fetch_next_outgoing_activity] at h
    have hmem := pickMinNextTry_mem h
    have hmin := pickMinNextTry_min h
    rw [List.mem_filter] at hmem
    refine ⟨hmem.1, hmem.2, ?_⟩
    intro x hx hel
    exact hmin x (List.mem_filter.mpr ⟨hx, hel⟩)
  · intro a
    unfold outgoingActivityEligible
    cases hnt : a.next_try with
    | none => simp [hnt]
    | some t => simp [hnt, and_assoc]

/-- C5 witness: of two pending rows with `next_try` 9 and 5, a fetch at time
10 returns the one scheduled at 5, which is indeed eligible. -/
theorem fetch_next_selects_min_witness :
    outgoingActivityEligible 10 { next_try := some 5, id := 2 } = true :=
  ((fetch_next_selects_min 10
      [{ next_try := some 9, id := 1 }, { next_try := some 5, id := 2 }]).2.1
    { next_try := some 5, id := 2 } (by decide)).2.1

/-- C6: a 2xx response makes `process` mark the row `is_sent = true`, record
the response's status code, clear the error, and (the row being one fetched
for processing, hence not errored) leave `is_errored = false`. -/
theorem process_success_marks_sent :
    ∀ (maxRetries : Nat) (now : Int) (status : Nat) (body : String)
      (a : OutgoingActivity),
      200 ≤ status → status < 300 → a.is_errored = false →
      (process_next_outgoing_activity maxRetries now
          (.response status body) a).is_sent = true
      ∧ (process_next_outgoing_activity maxRetries now
          (.response status body) a).last_status_code = some status
      ∧ (process_next_outgoing_activity maxRetries now
          (.response status body) a).error = none
      ∧ (process_next_outgoing_activity maxRetries now
          (.response status body) a).is_errored = false := by
  intro maxRetries now status body a h1 h2 herr
  have h2xx : is2xx status = true := by
    unfold is2xx
    rw [Bool.and_eq_true]
    exact ⟨decide_eq_true h1, decide_eq_true h2⟩
  simp [process_next_outgoing_activity, h2xx, herr]

/-- C6 witness: processing a 204 response on a fresh row yields a sent,
error-free row recording status 204. -/
theorem process_success_marks_sent_witness :
    (process_next_outgoing_activity 3 0 (.response 204 ("")) {}).is_sent = true
    ∧ (process_next_outgoing_activity 3 0
        (.response 204 ("")) {}).last_status_code = some 204 :=
  ⟨(process_success_marks_sent 3 0 204 ("") {} (by decide) (by decide) rfl).1,
    (process_success_marks_sent 3 0 204 ("") {} (by decide) (by decide) rfl).2.1⟩

/-- C2: when a delivery attempt fails and the incremented `tries` counter
reaches `MAX_RETRIES`, the row ends with `is_errored = true` and
`is_sent = false`, and no subsequent `fetch_next` call, over any row set at
any time, ever returns that row again. -/
theorem errored_row_is_terminal :
    ∀ (maxRetries : Nat) (now : Int) (outcome : DeliveryOutcome)
      (a : OutgoingActivity),
      a.is_sent = false →
      deliveryFailed outcome = true →
      maxRetries ≤ a.tries + 1 →
      (process_next_outgoing_activity maxRetries now outcome a).is_errored = true
      ∧ (process_next_outgoing_activity maxRetries now outcome a).is_sent = false
      ∧ ∀ (later : Int) (rows : List OutgoingActivity),
          fetch_next_outgoing_activity later rows
            ≠ some (process_next_outgoing_activity maxRetries now outcome a) := by
  intro maxRetries now outcome a hsent hfail hmax
  have hstate :
      (process_next_outgoing_activity maxRetries now outcome a).is_errored = true
      ∧ (process_next_outgoing_activity maxRetries now outcome a).is_sent = false := by
    cases outcome with
    | response status body =>
      have hnot : is2xx status = false := by
        simpa [deliveryFailed] using hfail
      simp [process_next_outgoing_activity, hnot, hmax, hsent]
    | connectionError msg =>
      simp [process_next_outgoing_activity, hmax, hsent]
  refine ⟨hstate.1, hstate.2, ?_⟩
  intro later rows hfetch
  rw [fetch_next_outgoing_activity] at hfetch
  have hmem := pickMinNextTry_mem hfetch
  rw [List.mem_filter] at hmem
  have hel := hmem.2
  unfold outgoingActivityEligible at hel
  rw [hstate.1] at hel
  simp at hel

/-- C2 witness: one more failure on a row that already used up
`MAX_RETRIES - 1 = 2` tries leaves it errored and unsent. -/
theorem errored_row_is_terminal_witness :
    (process_next_outgoing_activity 3 0
        (.response 500 ("oops")) { tries := 2 }).is_errored = true
    ∧ (process_next_outgoing_activity 3 0
        (.response 500 ("oops")) { tries := 2 }).is_sent = false :=
  ⟨(errored_row_is_terminal 3 0 (.response 500 ("oops")) { tries := 2 }
      rfl rfl (by decide)).1,
    (errored_row_is_terminal 3 0 (.response 500 ("oops")) { tries := 2 }
      rfl rfl (by decide)).2.1⟩

/-- C4: ingesting a fresh protocol identifier stores one row and applies
side effects; ingesting the same identifier again applies no side effects
and leaves the table unchanged, so exactly one row with that `ap_id`
remains; and per-`ap_id` uniqueness of each table is preserved by any
ingest — for the inbox and the outbox table alike. -/
theorem ingest_dedup_unique :
    ∀ (inStore : List InboxObject) (r : InboxObject)
      (outStore : List OutboxObject) (q : OutboxObject) (s : String),
      (inStore.countP (fun x => decide (x.ap_id = r.ap_id)) = 0 →
        (ingestInboxObject inStore r).2 = true
        ∧ ingestInboxObject (ingestInboxObject inStore r).1 r
            = ((ingestInboxObject inStore r).1, false)
        ∧ (ingestInboxObject inStore r).1.countP
            (fun x => decide (x.ap_id = r.ap_id)) = 1)
      ∧ (inStore.countP (fun x => decide (x.ap_id = s)) ≤ 1 →
        (ingestInboxObject inStore r).1.countP
          (fun x => decide (x.ap_id = s)) ≤ 1)
      ∧ (outStore.countP (fun x => decide (x.ap_id = q.ap_id)) = 0 →
        (ingestOutboxObject outStore q).2 = true
        ∧ ingestOutboxObject (ingestOutboxObject outStore q).1 q
            = ((ingestOutboxObject outStore q).1, false)
        ∧ (ingestOutboxObject outStore q).1.countP
            (fun x => decide (x.ap_id = q.ap_id)) = 1)
      ∧ (outStore.countP (fun x => decide (x.ap_id = s)) ≤ 1 →
        (ingestOutboxObject outStore q).1.countP
          (fun x => decide (x.ap_id = s)) ≤ 1) := by
  intro inStore r outStore q s
  refine ⟨?_, ?_, ?_, ?_⟩
  · intro h
    have hnone : ∀ x ∈ inStore, ¬(decide (x.ap_id = r.ap_id) = true) :=
      List.countP_eq_zero.mp h
    have hany : (inStore.any fun x => decide (x.ap_id = r.ap_id)) = false := by
      rw [List.any_eq_false]
      exact hnone
    have hfresh : ingestInboxObject inStore r = (inStore ++ [r], true) := by
      simp [ingestInboxObject, hany]
    have hany2 :
        ((inStore ++ [r]).any fun x => decide (x.ap_id = r.ap_id)) = true :=
      List.any_eq_true.mpr ⟨r, List.mem_append_right _ (List.mem_singleton.mpr rfl),
        by simp⟩
    refine ⟨by rw [hfresh], ?_, ?_⟩
    · rw [hfresh]
      simp [ingestInboxObject, hany2]
    · rw [hfresh]
      rw [List.countP_append, h]
      simp
  · intro h
    by_cases hany : (inStore.any fun x => decide (x.ap_id = r.ap_id)) = true
    · simp [ingestInboxObject, hany]
      exact h
    · rw [Bool.not_eq_true] at hany
      have hres : (ingestInboxObject inStore r).1 = inStore ++ [r] := by
        simp [ingestInboxObject, hany]
      rw [hres, List.countP_append]
      by_cases hs : r.ap_id = s
      · subst hs
        have h0 : inStore.countP (fun x => decide (x.ap_id = r.ap_id)) = 0 :=
          List.countP_eq_zero.mpr (List.any_eq_false.mp hany)
        rw [h0]
        simp
      · have h1 : ([r].countP fun x => decide (x.ap_id = s)) = 0 := by
          simp [hs]
        rw [h1]
        simpa using h
  · intro h
    have hnone : ∀ x ∈ outStore, ¬(decide (x.ap_id = q.ap_id) = true) :=
      List.countP_eq_zero.mp h
    have hany : (outStore.any fun x => decide (x.ap_id = q.ap_id)) = false := by
      rw [List.any_eq_false]
      exact hnone
    have hfresh : ingestOutboxObject outStore q = (outStore ++ [q], true) := by
      simp [ingestOutboxObject, hany]
    have hany2 :
        ((outStore ++ [q]).any fun x => decide (x.ap_id = q.ap_id)) = true :=
      List.any_eq_true.mpr ⟨q, List.mem_append_right _ (List.mem_singleton.mpr rfl),
        by simp⟩
    refine ⟨by rw [hfresh], ?_, ?_⟩
    · rw [hfresh]
      simp [ingestOutboxObject, hany2]
    · rw [hfresh]
      rw [List.countP_append, h]
      simp
  · intro h
    by_cases hany : (outStore.any fun x => decide (x.ap_id = q.ap_id)) = true
    · simp [ingestOutboxObject, hany]
      exact h
    · rw [Bool.not_eq_true] at hany
      have hres : (ingestOutboxObject outStore q).1 = outStore ++ [q] := by
        simp [ingestOutboxObject, hany]
      rw [hres, List.countP_append]
      by_cases hs : q.ap_id = s
      · subst hs
        have h0 : outStore.countP (fun x => decide (x.ap_id = q.ap_id)) = 0 :=
          List.countP_eq_zero.mpr (List.any_eq_false.mp hany)
        rw [h0]
        simp
      · have h1 : ([q].countP fun x => decide (x.ap_id = s)) = 0 := by
          simp [hs]
        rw [h1]
        simpa using h

/-- C4 witness: double ingest of a concrete activity into an empty inbox
stores it once, applies side effects on the first ingest only, and leaves
exactly one row carrying its `ap_id`. -/
theorem ingest_dedup_unique_witness :
    (ingestInboxObject [] { ap_id := "https://r.example/a/1" }).2 = true
    ∧ (ingestInboxObject
        (ingestInboxObject [] { ap_id := "https://r.example/a/1" }).1
        { ap_id := "https://r.example/a/1" }).2 = false
    ∧ (ingestInboxObject
        (ingestInboxObject [] { ap_id := "https://r.example/a/1" }).1
        { ap_id := "https://r.example/a/1" }).1.countP
        (fun x => decide (x.ap_id = "https://r.example/a/1")) = 1 := by
  have h := (ingest_dedup_unique [] { ap_id := "https://r.example/a/1" }
    [] {} "").1 rfl
  refine ⟨h.1, ?_, ?_⟩
  · rw [h.2.1]
  · rw [h.2.1]
    exact h.2.2

/-- C3: the conversation-preservation rule of `_prune_old_inbox_objects` is
vacuous — its three-way `OR` (`conversation NOT LIKE 'BASE_URL%'`,
`conversation IS NULL`, `conversation NOT IN outbox_conversation`, the
subquery holding only conversations not starting with `BASE_URL`) is true
for every row, so it preserves nothing, contrary to the source comment
"Keep objects related to local conversations" and to the claim. Second
conjunct: a concrete old inbox Note participating in a conversation that
also contains local content (an outbox note shares its conversation), clean
of every other preservation rule, is deleted by the pruner. -/
theorem prune_conversation_rule_is_vacuous :
    (∀ (b : String) (rows : List OutboxObject) (obj : InboxObject),
      inboxPruneConversationClause b rows obj = true)
    ∧ participatesInLocalConversation "https://me.example"
        [{ ap_id := "https://me.example/o/1",
           conversation := some "https://r.example/ctx1" }]
        { ap_id := "https://r.example/n/2", ap_type := "Note",
          conversation := some "https://r.example/ctx1" } = true
    ∧ pruneDeletesInboxObject "https://me.example"
        [{ ap_id := "https://me.example/o/1",
           conversation := some "https://r.example/ctx1" }]
        1296000 14
        { ap_id := "https://r.example/n/2", ap_type := "Note",
          conversation := some "https://r.example/ctx1" } = true := by
  refine ⟨?_, by decide, by decide⟩
  intro b rows obj
  unfold inboxPruneConversationClause
  cases hc : obj.conversation with
  | none => rfl
  | some c =>
    cases hl : likeStartsWith b c with
    | false => simp [hl]
    | true =>
      have hmem : inOutboxConversations b rows c = false := by
        unfold inOutboxConversations
        rw [List.any_eq_false]
        intro o ho
        cases hoc : o.conversation with
        | none => simp
        | some v =>
          simp only
          by_cases hv : v = c
          · subst hv
            simp [hl]
          · simp [hv]
      simp [hmem]

/-- In a list where predicate `p` counts exactly one position, all members
satisfying `p` coincide. -/
theorem countP_one_all_eq {α : Type} (p : α → Bool) :
    ∀ (l : List α) (a : α), l.countP p = 1 → a ∈ l → p a = true →
      ∀ b ∈ l, p b = true → b = a := by
  intro l
  induction l with
  | nil => intro a h ha; simp at ha
  | cons h t ih =>
    intro a hcount hmem hpa b hbmem hpb
    by_cases hph : p h = true
    · rw [List.countP_cons_of_pos _ _ hph] at hcount
      have ht0 : t.countP p = 0 := by omega
      have hnt := List.countP_eq_zero.mp ht0
      have ha : a = h := by
        rcases List.mem_cons.mp hmem with h1 | h1
        · exact h1
        · exact absurd hpa (hnt a h1)
      have hb : b = h := by
        rcases List.mem_cons.mp hbmem with h1 | h1
        · exact h1
        · exact absurd hpb (hnt b h1)
      rw [ha, hb]
    · rw [List.countP_cons_of_neg _ _ hph] at hcount
      have ha : a ∈ t := by
        rcases List.mem_cons.mp hmem with h1 | h1
        · exact absurd (h1 ▸ hpa) hph
        · exact h1
      have hb : b ∈ t := by
        rcases List.mem_cons.mp hbmem with h1 | h1
        · exact absurd (h1 ▸ hpb) hph
        · exact h1
      exact ih a hcount ha hpa b hb hpb

/-- When `d` is the unique outbox row carrying its `ap_id` and is live,
the tombstoning lookup of `sendDelete` finds exactly `d`. -/
theorem find_live_of_unique_apId :
    ∀ (l : List OutboxObject) (d : OutboxObject),
      l.countP (fun x => decide (x.ap_id = d.ap_id)) = 1 →
      d ∈ l → d.is_deleted = false →
      l.find? (fun o => decide (o.ap_id = d.ap_id) && !o.is_deleted) = some d := by
  intro l
  induction l with
  | nil => intro d h hd; simp at hd
  | cons h t ih =>
    intro d hcount hmem hdel
    by_cases hph : h.ap_id = d.ap_id
    · have hphd : (decide (h.ap_id = d.ap_id)) = true := decide_eq_true hph
      rw [List.countP_cons_of_pos (fun x => decide (x.ap_id = d.ap_id)) t hphd]
        at hcount
      have ht0 : t.countP (fun x => decide (x.ap_id = d.ap_id)) = 0 := by omega
      have hnt := List.countP_eq_zero.mp ht0
      have hda : d = h := by
        rcases List.mem_cons.mp hmem with h1 | h1
        · exact h1
        · exact absurd (decide_eq_true rfl) (hnt d h1)
      rw [← hda]
      simp [List.find?_cons, hdel]
    · have hphd : (decide (h.ap_id = d.ap_id)) = false :=
        decide_eq_false hph
      rw [List.countP_cons_of_neg] at hcount
      · have hd2 : d ∈ t := by
          rcases List.mem_cons.mp hmem with h1 | h1
          · exact absurd (h1 ▸ rfl) hph
          · exact h1
        rw [List.find?_cons, hphd]
        simpa using ih d hcount hd2 hdel
      · simp [hphd]

/-- A map whose function fixes every member of the list is the identity on
that list. -/
theorem map_eq_self_of_mem_eq {α : Type} (f : α → α) :
    ∀ (l : List α), (∀ x ∈ l, f x = x) → l.map f = l := by
  intro l
  induction l with
  | nil => intro; rfl
  | cons a t ih =>
    intro h
    simp only [List.map_cons]
    rw [h a (List.mem_cons_self a t),
      ih (fun x hx => h x (List.mem_cons_of_mem a hx))]

/-- Tombstoning the unique live row carrying `delId` — a live reply to
`parent` — drops the live-reply count over the outbox table by exactly 1. -/
theorem countP_live_replies_tombstone :
    ∀ (l : List OutboxObject) (delId parent : String),
      l.countP (fun x => decide (x.ap_id = delId)) = 1 →
      (∀ x ∈ l, x.ap_id = delId →
        x.in_reply_to = some parent ∧ x.is_deleted = false) →
      (l.map fun x =>
          if x.ap_id = delId then { x with is_deleted := true } else x).countP
          (isLiveOutboxReplyTo parent) + 1
        = l.countP (isLiveOutboxReplyTo parent) := by
  intro l
  induction l with
  | nil => intro delId parent h; simp at h
  | cons h t ih =>
    intro delId parent hcount hprop
    by_cases hph : h.ap_id = delId
    · have hphd : (decide (h.ap_id = delId)) = true := decide_eq_true hph
      rw [List.countP_cons_of_pos (fun x => decide (x.ap_id = delId)) t hphd]
        at hcount
      have ht0 : t.countP (fun x => decide (x.ap_id = delId)) = 0 := by omega
      have hnt : ∀ x ∈ t, ¬x.ap_id = delId := by
        intro x hx heq
        exact (List.countP_eq_zero.mp ht0) x hx (decide_eq_true heq)
      have hmap : (t.map fun x =>
          if x.ap_id = delId then { x with is_deleted := true } else x) = t :=
        map_eq_self_of_mem_eq _ t (fun x hx => if_neg (hnt x hx))
      obtain ⟨hrep, hdel⟩ := hprop h (List.mem_cons_self h t) hph
      rw [List.map_cons, if_pos hph, hmap]
      have hpredT : isLiveOutboxReplyTo parent { h with is_deleted := true } = false := by
        simp [isLiveOutboxReplyTo]
      have hpredH : isLiveOutboxReplyTo parent h = true := by
        simp [isLiveOutboxReplyTo, hrep, hdel]
      rw [List.countP_cons_of_neg, List.countP_cons_of_pos _ _ hpredH]
      simp [hpredT]
    · have hphd : (decide (h.ap_id = delId)) = false := decide_eq_false hph
      rw [List.countP_cons_of_neg] at hcount
      · have hpropT : ∀ x ∈ t, x.ap_id = delId →
            x.in_reply_to = some parent ∧ x.is_deleted = false :=
          fun x hx => hprop x (List.mem_cons_of_mem h hx)
        have hrec := ih delId parent hcount hpropT
        rw [List.map_cons, if_neg hph]
        cases hpred : isLiveOutboxReplyTo parent h
        · rw [List.countP_cons_of_neg, List.countP_cons_of_neg]
          · exact hrec
          · simp [hpred]
          · simp [hpred]
        · rw [List.countP_cons_of_pos _ _ hpred, List.countP_cons_of_pos _ _ hpred]
          omega
      · simp [hphd]

/-- C1 (amended): deleting an OutboxObject that is a reply refreshes the
parent's `replies_count` to the count of live replies remaining after the
delete; so every row carrying the parent's `ap_id` — in the inbox or the
outbox table — ends one below the pre-delete live reply count, and a parent
whose counter was accurate (equal to the live reply count `n`) ends at
`n - 1`. -/
theorem delete_reply_refreshes_parent_count :
    ∀ (s : Store) (d : OutboxObject) (p : String),
      d ∈ s.outbox → d.is_deleted = false → d.in_reply_to = some p →
      s.outbox.countP (fun x => decide (x.ap_id = d.ap_id)) = 1 →
      (∀ q ∈ (sendDelete s d.ap_id).inbox, q.ap_id = p →
          q.replies_count + 1 = liveRepliesCount s.inbox s.outbox p)
      ∧ (∀ q ∈ (sendDelete s d.ap_id).outbox, q.ap_id = p →
          q.replies_count + 1 = liveRepliesCount s.inbox s.outbox p)
      ∧ (∀ parentRow ∈ s.inbox, parentRow.ap_id = p →
          ∃ q ∈ (sendDelete s d.ap_id).inbox, q.ap_id = p
            ∧ (parentRow.replies_count = liveRepliesCount s.inbox s.outbox p →
                q.replies_count + 1 = parentRow.replies_count)) := by
  intro s d p hmem hdel hrep hcount
  have hfind := find_live_of_unique_apId s.outbox d hcount hmem hdel
  have hprop : ∀ x ∈ s.outbox, x.ap_id = d.ap_id →
      x.in_reply_to = some p ∧ x.is_deleted = false := by
    intro x hx hxid
    have hx_eq : x = d :=
      countP_one_all_eq _ s.outbox d hcount hmem (by simp) x hx
        (decide_eq_true hxid)
    rw [hx_eq]
    exact ⟨hrep, hdel⟩
  have hcnt := countP_live_replies_tombstone s.outbox d.ap_id p hcount hprop
  have hlive : liveRepliesCount s.inbox
        (s.outbox.map fun x =>
          if x.ap_id = d.ap_id then { x with is_deleted := true } else x) p + 1
      = liveRepliesCount s.inbox s.outbox p := by
    unfold liveRepliesCount
    omega
  simp only [sendDelete, hfind, hrep]
  refine ⟨?_, ?_, ?_⟩
  · intro q hq hqp
    rcases List.mem_map.mp hq with ⟨x, hx, hxq⟩
    by_cases hxp : x.ap_id = p
    · rw [if_pos hxp] at hxq
      rw [← hxq]
      exact hlive
    · rw [if_neg hxp] at hxq
      exact absurd (hxq ▸ hqp) hxp
  · intro q hq hqp
    rcases List.mem_map.mp hq with ⟨y, hy, hyq⟩
    by_cases hyp : y.ap_id = p
    · rw [if_pos hyp] at hyq
      rw [← hyq]
      exact hlive
    · rw [if_neg hyp] at hyq
      exact absurd (hyq ▸ hqp) hyp
  · intro parentRow hpr hprp
    refine ⟨_, List.mem_map_of_mem _ hpr, ?_, ?_⟩
    · simp only [if_pos hprp]
      exact hprp
    · intro hacc
      simp only [if_pos hprp]
      rw [hacc]
      exact hlive

/-- C1 counterexample: the repository's own test scenario
(`test_send_delete__reverts_side_effects`) — a parent inbox note with a
stale `replies_count = 5` and two live outbox replies. Deleting one reply
leaves the parent's counter at 1 (the refreshed live reply count), not at
`5 - 1 = 4` as the claim's "replies_count = n - 1 for every parent with
replies_count = n" requires. -/
theorem send_delete_is_not_plain_decrement :
    ((sendDelete
        { inbox := [{ ap_id := "https://r.example/n/p", replies_count := 5 }],
          outbox := [{ ap_id := "https://me.example/o/1",
                       in_reply_to := some "https://r.example/n/p" },
                     { ap_id := "https://me.example/o/2",
                       in_reply_to := some "https://r.example/n/p" }] }
        "https://me.example/o/2").inbox.map fun q => q.replies_count) = [1]
    ∧ (1 : Nat) ≠ 5 - 1 := by
  refine ⟨by decide, by decide⟩

/-- C1 witness: the amended theorem applied to that same scenario — the
parent row ends at 1, which is one below the pre-delete live reply count 2. -/
theorem delete_reply_refreshes_parent_count_witness :
    ({ ap_id := "https://r.example/n/p", replies_count := 1 } : InboxObject).replies_count + 1
      = liveRepliesCount
          [{ ap_id := "https://r.example/n/p", replies_count := 5 }]
          [{ ap_id := "https://me.example/o/1",
             in_reply_to := some "https://r.example/n/p" },
           { ap_id := "https://me.example/o/2",
             in_reply_to := some "https://r.example/n/p" }]
          "https://r.example/n/p" :=
  (delete_reply_refreshes_parent_count
      { inbox := [{ ap_id := "https://r.example/n/p", replies_count := 5 }],
        outbox := [{ ap_id := "https://me.example/o/1",
                     in_reply_to := some "https://r.example/n/p" },
                   { ap_id := "https://me.example/o/2",
                     in_reply_to := some "https://r.example/n/p" }] }
      { ap_id := "https://me.example/o/2",
        in_reply_to := some "https://r.example/n/p" }
      "https://r.example/n/p"
      (by decide) rfl rfl (by decide)).1
    { ap_id := "https://r.example/n/p", replies_count := 1 }
    (by decide) rfl

end Microblog
